import Mathlib

/-!
Verification development for the `ireal_url` repository: a decoder for the
iReal chord-chart URL format.  The Rust sources are shallowly embedded here:
strings are modelled as `List Char`, fallible functions return `Except` or an
explicit outcome type with a `panicked` constructor for Rust panics
(`unwrap` on `None`/`Err`, out-of-bounds indexing), and each definition is a
direct translation of the corresponding Rust item in `src/lib.rs`,
`src/tokenize.rs`, `src/parse.rs` and `src/types.rs`.
-/

namespace IrealUrl

/-! ### Descrambler (`src/lib.rs`: `unscramble`, `obfusc50`) -/

/-- `Vec::swap(i, j)` on a list; out-of-range indices leave the list
unchanged (the Rust call would panic, but every call site below stays in
bounds on the inputs it receives). -/
def swapIdx (cs : List Char) (i j : Nat) : List Char :=
  match cs.get? i, cs.get? j with
  | some a, some b => (cs.set i b).set j a
  | _, _ => cs

/-- `obfusc50` from `src/lib.rs`: swap chars `i` and `last - i` for
`i ∈ [0,5)` and then for `i ∈ [10,24)`, where `last = len - 1`. -/
def obfusc50 (text : List Char) : List Char :=
  let last := text.length - 1
  let cs1 := (List.range 5).foldl (fun cs i => swapIdx cs i (last - i)) text
  (List.range' 10 14).foldl (fun cs i => swapIdx cs i (last - i)) cs1

/-- Fuel-indexed embedding of the `while text.len() > 50` loop of
`unscramble` in `src/lib.rs`.  Each iteration consumes 50 characters, so
fuel `text.length` always suffices; the fuel-0 branch is unreachable at the
call site in `unscramble`. -/
def unscrambleFuel : Nat → List Char → List Char
  | 0, text => text
  | fuel + 1, text =>
    if 50 < text.length then
      (if (text.drop 50).length < 2 then text.take 50
       else obfusc50 (text.take 50)) ++ unscrambleFuel fuel (text.drop 50)
    else text

/-- `unscramble` from `src/lib.rs`. -/
def unscramble (text : List Char) : List Char :=
  unscrambleFuel text.length text

/-! ### Percent decoder (`src/lib.rs`: `hex_digit_value`, `unescape_percent`) -/

/-- `hex_digit_value` from `src/lib.rs`. -/
def hex_digit_value (ch : Char) : Except String Nat :=
  match ch with
  | '0' => .ok 0 | '1' => .ok 1 | '2' => .ok 2 | '3' => .ok 3
  | '4' => .ok 4 | '5' => .ok 5 | '6' => .ok 6 | '7' => .ok 7
  | '8' => .ok 8 | '9' => .ok 9 | 'a' => .ok 10 | 'b' => .ok 11
  | 'c' => .ok 12 | 'd' => .ok 13 | 'e' => .ok 14 | 'f' => .ok 15
  | 'A' => .ok 10 | 'B' => .ok 11 | 'C' => .ok 12 | 'D' => .ok 13
  | 'E' => .ok 14 | 'F' => .ok 15
  | _ => .error (String.push "Unknown value: " ch)

/-- The 3-state scanner of `unescape_percent` (`src/lib.rs`). -/
inductive UnescapeState
  | Plain
  | Percent
  | One

/-- The character loop of `unescape_percent`: carries the state, the partial
hex value `num` and the accumulated result.  `char::from_u32(num).unwrap()`
never panics because `num ≤ 16 * 15 + 15 = 255` is a valid scalar value, so
it is embedded as `Char.ofNat`. -/
def unescapeGo : List Char → UnescapeState → Nat → List Char → Except String (List Char)
  | [], _, _, result => .ok result
  | c :: cs, .Plain, num, result =>
    if c = '%' then unescapeGo cs .Percent num result
    else unescapeGo cs .Plain num (result ++ [c])
  | c :: cs, .Percent, _, result =>
    match hex_digit_value c with
    | .error e => .error e
    | .ok v => unescapeGo cs .One (16 * v) result
  | c :: cs, .One, num, result =>
    match hex_digit_value c with
    | .error e => .error e
    | .ok v => unescapeGo cs .Plain num (result ++ [Char.ofNat (num + v)])

/-- `unescape_percent` from `src/lib.rs`. -/
def unescape_percent (text : List Char) : Except String (List Char) :=
  unescapeGo text .Plain 0 []

/-! ### Chord model (`src/tokenize.rs`, duplicated verbatim in `src/types.rs`) -/

/-- The `Note` enum. -/
inductive Note
  | AFlat | A | ASharp | BFlat | B | CFlat | C | CSharp | DFlat | D
  | DSharp | EFlat | E | F | FSharp | GFlat | G | GSharp | W
deriving DecidableEq, Repr

/-- The `Number` enum. -/
inductive Number
  | Two | Three | Five | Six | Seven | Nine | Eleven | Thirteen
deriving DecidableEq, Repr

/-- The `Flavor` enum. -/
inductive Flavor
  | Augmented (n : Option Number)
  | Diminished (n : Option Number)
  | DiminishedMajor (n : Option Number)
  | HalfDiminished (n : Option Number)
  | Minor (n : Option Number)
  | MinorMajor (n : Option Number)
  | Dominant (n : Option Number)
  | Major (n : Option Number)
  | SixthNinth
  | MinorSixthNinth
deriving DecidableEq, Repr

/-- The `AlteredNotes` enum. -/
inductive AlteredNotes
  | Flat (n : Number)
  | Sharp (n : Number)
  | Add (n : Number)
  | Sus
  | Alt
deriving DecidableEq, Repr

/-- The `Chord` enum: no-chord, or root + flavor + alterations + bass. -/
inductive Chord
  | NC
  | Some (root : Note) (flavor : Flavor) (altered_notes : List AlteredNotes)
      (bass_note : Option Note)
deriving DecidableEq, Repr

/-! ### Tokenizer (`src/tokenize.rs`, nom combinators over `&str`) -/

/-- Result of a nom parser: failure (`Err` in nom), an uncaught Rust panic
raised while parsing, or success with the remaining input. -/
inductive PR (α : Type)
  | fail
  | panicked
  | done (rest : List Char) (a : α)
deriving DecidableEq, Repr

/-- A nom-style parser over character lists. -/
def Parser (α : Type) : Type := List Char → PR α

/-- `nom::bytes::complete::tag`. -/
def pTag (s : String) : Parser (List Char) := fun input =>
  if input.take s.toList.length = s.toList then
    .done (input.drop s.toList.length) s.toList
  else .fail

/-- `nom::combinator::map`. -/
def pMap (f : α → β) (p : Parser α) : Parser β := fun input =>
  match p input with
  | .fail => .fail
  | .panicked => .panicked
  | .done r a => .done r (f a)

/-- Two-way alternation, the cons case of `nom::branch::alt`. -/
def pAlt (p q : Parser α) : Parser α := fun input =>
  match p input with
  | .fail => q input
  | .panicked => .panicked
  | .done r a => .done r a

/-- `nom::branch::alt` over a list of parsers, tried in order. -/
def pAlts : List (Parser α) → Parser α
  | [] => fun _ => .fail
  | p :: ps => pAlt p (pAlts ps)

/-- `nom::sequence::tuple` for two parsers. -/
def pThen (p : Parser α) (q : Parser β) : Parser (α × β) := fun input =>
  match p input with
  | .fail => .fail
  | .panicked => .panicked
  | .done r a =>
    match q r with
    | .fail => .fail
    | .panicked => .panicked
    | .done r2 b => .done r2 (a, b)

/-- `nom::bytes::complete::take(1usize)`. -/
def pTake1 : Parser Char := fun input =>
  match input with
  | [] => .fail
  | c :: cs => .done cs c

/-- Embedding of the combinator `take_until` specialised to the string
`">"`: consume up to, not including, the first occurrence; fail when none
occurs. -/
def pTakeUntilGt : Parser (List Char) := fun input =>
  let pre := input.takeWhile (fun c => c ≠ '>')
  if pre.length = input.length then .fail
  else .done (input.drop pre.length) pre

/-- Fuel-indexed loop of `nom::multi::many0`.  A success that consumes
nothing is nom's `Many0` infinite-loop error, embedded as `.fail`; the
fuel-0 branch is unreachable because every iteration consumes at least one
character and the fuel starts at `input.length + 1`. -/
def pManyGo (p : Parser α) : Nat → List Char → PR (List α)
  | 0, _ => .fail
  | fuel + 1, input =>
    match p input with
    | .panicked => .panicked
    | .fail => .done input []
    | .done rest a =>
      if rest.length < input.length then
        match pManyGo p fuel rest with
        | .panicked => .panicked
        | .fail => .fail
        | .done r as => .done r (a :: as)
      else .fail

/-- `nom::multi::many0`. -/
def pMany0 (p : Parser α) : Parser (List α) := fun input =>
  pManyGo p (input.length + 1) input

/-- `nom::combinator::all_consuming`. -/
def pAllConsuming (p : Parser α) : Parser α := fun input =>
  match p input with
  | .fail => .fail
  | .panicked => .panicked
  | .done r a => if r = [] then .done [] a else .fail

/-- `note()` from `src/tokenize.rs`, alternatives in source order. -/
def noteP : Parser Note :=
  pAlts
    [ pMap (fun _ => Note.AFlat) (pTag "Ab"),
      pMap (fun _ => Note.ASharp) (pTag "A#"),
      pMap (fun _ => Note.A) (pTag "A"),
      pMap (fun _ => Note.BFlat) (pTag "Bb"),
      pMap (fun _ => Note.B) (pTag "B"),
      pMap (fun _ => Note.CFlat) (pTag "Cb"),
      pMap (fun _ => Note.CSharp) (pTag "C#"),
      pMap (fun _ => Note.C) (pTag "C"),
      pMap (fun _ => Note.DFlat) (pTag "Db"),
      pMap (fun _ => Note.DSharp) (pTag "D#"),
      pMap (fun _ => Note.D) (pTag "D"),
      pMap (fun _ => Note.EFlat) (pTag "Eb"),
      pMap (fun _ => Note.E) (pTag "E"),
      pMap (fun _ => Note.FSharp) (pTag "F#"),
      pMap (fun _ => Note.F) (pTag "F"),
      pMap (fun _ => Note.GFlat) (pTag "Gb"),
      pMap (fun _ => Note.GSharp) (pTag "G#"),
      pMap (fun _ => Note.G) (pTag "G"),
      pMap (fun _ => Note.W) (pTag "W") ]

/-- `number()` from `src/tokenize.rs`. -/
def numberP : Parser Number :=
  pAlts
    [ pMap (fun _ => Number.Two) (pTag "2"),
      pMap (fun _ => Number.Three) (pTag "3"),
      pMap (fun _ => Number.Five) (pTag "5"),
      pMap (fun _ => Number.Six) (pTag "6"),
      pMap (fun _ => Number.Seven) (pTag "7"),
      pMap (fun _ => Number.Nine) (pTag "9"),
      pMap (fun _ => Number.Eleven) (pTag "11"),
      pMap (fun _ => Number.Thirteen) (pTag "13") ]

/-- `number_option()` from `src/tokenize.rs`: a number, or the empty tag. -/
def numberOptionP : Parser (Option Number) :=
  pAlt (pMap some numberP) (pMap (fun _ => none) (pTag ""))

/-- `flavor()` from `src/tokenize.rs`, alternatives in source order. -/
def flavorP : Parser Flavor :=
  pAlts
    [ pMap (fun _ => Flavor.SixthNinth) (pTag "69"),
      pMap (fun _ => Flavor.MinorSixthNinth) (pTag "-69"),
      pMap (fun x => Flavor.MinorMajor x.2) (pThen (pTag "-^") numberOptionP),
      pMap (fun x => Flavor.Minor x.2) (pThen (pTag "-") numberOptionP),
      pMap (fun x => Flavor.Major x.2) (pThen (pTag "^") numberOptionP),
      pMap (fun x => Flavor.HalfDiminished x.2) (pThen (pTag "h") numberOptionP),
      pMap (fun x => Flavor.DiminishedMajor x.2) (pThen (pTag "o^") numberOptionP),
      pMap (fun x => Flavor.Diminished x.2) (pThen (pTag "o") numberOptionP),
      pMap (fun x => Flavor.Augmented x.2) (pThen (pTag "+") numberOptionP),
      pMap Flavor.Dominant numberOptionP ]

/-- `altered_notes()` from `src/tokenize.rs`. -/
def alteredNotesP : Parser (List AlteredNotes) :=
  pMany0
    (pAlts
      [ pMap (fun x => AlteredNotes.Flat x.2) (pThen (pTag "b") numberP),
        pMap (fun x => AlteredNotes.Sharp x.2) (pThen (pTag "#") numberP),
        pMap (fun x => AlteredNotes.Add x.2) (pThen (pTag "add") numberP),
        pMap (fun _ => AlteredNotes.Sus) (pTag "sus"),
        pMap (fun _ => AlteredNotes.Alt) (pTag "alt") ])

/-- `over()` from `src/tokenize.rs`: optional `/<note>` bass. -/
def overP : Parser (Option Note) :=
  pAlt (pMap (fun x => some x.2) (pThen (pTag "/") noteP))
    (pMap (fun _ => none) (pTag ""))

/-- `chord()` from `src/tokenize.rs`. -/
def chordP : Parser Chord :=
  pAlt (pMap (fun _ => Chord.NC) (pTag "n"))
    (pMap (fun x => Chord.Some x.1 x.2.1 x.2.2.1 x.2.2.2)
      (pThen noteP (pThen flavorP (pThen alteredNotesP overP))))

/-- The `Token` enum from `src/tokenize.rs`.  String payloads are character
lists; `TimeSignature` carries the two parsed numbers. -/
inductive Token
  | AlternateChord (c : Chord)
  | Bar
  | Blank
  | Chord (c : Chord)
  | Coda
  | Comment (s : List Char)
  | DoubleBarEnd
  | DoubleBarStart
  | EndingMeasure
  | FinalBar
  | NumberedEnding (s : List Char)
  | PauseSlash
  | RepeatEnd
  | RepeatMeasure
  | BarAndRepeat
  | RepeatTwoMeasures
  | RepeatStart
  | SectionMarker (s : List Char)
  | Segno
  | TimeSignature (top : Nat) (bottom : Nat)
  | VerticalSpace
  | Fermata
  | Squeeze
  | SmallL
  | Comma
  | Space
deriving DecidableEq, Repr

/-- `chord_token()` from `src/tokenize.rs` (its body repeats `chord()`
verbatim, wrapping the result in `Token::Chord`). -/
def chordTokenP : Parser Token := pMap Token.Chord chordP

/-- `section_marker()`: `*` followed by one character. -/
def sectionMarkerP : Parser Token :=
  pMap (fun x => Token.SectionMarker [x.2]) (pThen (pTag "*") pTake1)

/-- `numbered_ending()`: `N` followed by one character. -/
def numberedEndingP : Parser Token :=
  pMap (fun x => Token.NumberedEnding [x.2]) (pThen (pTag "N") pTake1)

/-- `comment()`: `<` text `>`. -/
def commentP : Parser Token :=
  pMap (fun x => Token.Comment x.2.1)
    (pThen (pTag "<") (pThen pTakeUntilGt (pTag ">")))

/-- `alternate()`: a chord in parentheses. -/
def alternateP : Parser Token :=
  pMap (fun x => Token.AlternateChord x.2.1)
    (pThen (pTag "(") (pThen chordP (pTag ")")))

/-- Digit-string value, or `none` on the empty string: the behaviour of
`str::parse::<u32>` on the digit strings that `time_signature()` produces
(overflow, impossible for the chart-sized numbers involved, is not
modelled). -/
def natOfDigits (ds : List Char) : Option Nat :=
  if ds = [] then none
  else some (ds.foldl (fun acc c => 10 * acc + (c.toNat - 48)) 0)

/-- `time_signature()` from `src/tokenize.rs`: `T` then `digit1`; all but
the last digit form the numerator.  With a single digit the numerator
string is empty and `"".parse().unwrap()` panics, embedded as
`.panicked`. -/
def timeSignatureP : Parser Token := fun input =>
  match pTag "T" input with
  | .fail => .fail
  | .panicked => .panicked
  | .done r _ =>
    let digits := r.takeWhile Char.isDigit
    if digits = [] then .fail
    else
      let rest := r.drop digits.length
      let top := digits.take (digits.length - 1)
      let bottom := digits.drop (digits.length - 1)
      match natOfDigits top, natOfDigits bottom with
      | some t, some b => .done rest (Token.TimeSignature t b)
      | _, _ => .panicked

/-- `control()` from `src/tokenize.rs`, alternatives in source order. -/
def controlP : Parser Token :=
  pAlts
    [ pMap (fun _ => Token.RepeatStart) (pTag "\x7b"),
      pMap (fun _ => Token.RepeatEnd) (pTag "\x7d|"),
      pMap (fun _ => Token.RepeatEnd) (pTag "\x7d"),
      pMap (fun _ => Token.Comma) (pTag ","),
      pMap (fun _ => Token.Blank) (pTag "XyQ"),
      pMap (fun _ => Token.RepeatTwoMeasures) (pTag "r|"),
      pMap (fun _ => Token.RepeatMeasure) (pTag "x"),
      pMap (fun _ => Token.Squeeze) (pTag "s"),
      pMap (fun _ => Token.Coda) (pTag "Q"),
      pMap (fun _ => Token.Segno) (pTag "S"),
      pMap (fun _ => Token.VerticalSpace) (pTag "Y"),
      pMap (fun _ => Token.PauseSlash) (pTag "p"),
      pMap (fun _ => Token.EndingMeasure) (pTag "U"),
      pMap (fun _ => Token.SmallL) (pTag "l"),
      pMap (fun _ => Token.Fermata) (pTag "f"),
      pMap (fun _ => Token.Space) (pTag " ") ]

/-- `bar()` from `src/tokenize.rs`, alternatives in source order. -/
def barP : Parser Token :=
  pAlts
    [ pMap (fun _ => Token.Bar) (pTag "||"),
      pMap (fun _ => Token.Bar) (pTag "|"),
      pMap (fun _ => Token.DoubleBarStart) (pTag "["),
      pMap (fun _ => Token.DoubleBarEnd) (pTag "]"),
      pMap (fun _ => Token.FinalBar) (pTag "Z"),
      pMap (fun _ => Token.BarAndRepeat) (pTag "Kcl"),
      pMap (fun _ => Token.Bar) (pTag "LZ|"),
      pMap (fun _ => Token.Bar) (pTag "LZ") ]

/-- `parse_tokens` from `src/tokenize.rs`: `many0` over the eight rule
classes in source order. -/
def parse_tokens : Parser (List Token) :=
  pMany0
    (pAlts
      [ chordTokenP, barP, controlP, commentP, alternateP, sectionMarkerP,
        numberedEndingP, timeSignatureP ])

/-! ### Bar parser (`src/tokenize.rs`: `parse_music`) -/

/-- The `TimeSignature` struct. -/
structure TimeSignature where
  top : Nat
  bottom : Nat
deriving DecidableEq, Repr

/-- The `BarElement` enum from `src/tokenize.rs`. -/
inductive BarElement
  | SectionMarker (s : List Char)
  | TimeSignature (ts : TimeSignature)
  | Chord (c : Chord)
  | AlternateChord (c : Chord)
deriving DecidableEq, Repr

/-- The `Bar` struct from `src/tokenize.rs`: one list of elements per beat
slot. -/
structure Bar where
  counts : List (List BarElement)
deriving DecidableEq, Repr

/-- `Bar::new(count_count)`. -/
def Bar.new (count_count : Nat) : Bar :=
  ⟨List.replicate count_count []⟩

/-- The `Music` struct from `src/tokenize.rs`. -/
structure Music where
  repeat_start : Option Nat
  raw : List Char
  bars : List Bar
deriving DecidableEq, Repr

/-- Outcome of running Rust code that can return `Ok`, return `Err`, or
panic. -/
inductive POut (α : Type)
  | panicked
  | error (e : String)
  | ok (a : α)
deriving DecidableEq, Repr

/-- The mutable locals of `parse_music`'s token loop. -/
structure PState where
  bars : List Bar
  time_signature : TimeSignature
  bar : Option Bar
  count : Nat
deriving DecidableEq, Repr

/-- Loop state at entry of `parse_music`: no bars, default 4/4 signature,
no open bar, cursor 0. -/
def initState : PState :=
  { bars := [], time_signature := ⟨4, 4⟩, bar := none, count := 0 }

/-- One iteration of `parse_music`'s `for token in ...` loop
(`src/tokenize.rs` lines 530-587).  Out-of-bounds `counts[count]` indexing
and `bars.last().unwrap()` on an empty list are Rust panics, embedded as
`.panicked`; the `ignore` arm's `println!` is I/O and leaves the parse
state unchanged. -/
def parse_music_step (st : PState) : Token → POut PState
  | .Bar | .FinalBar | .DoubleBarEnd | .RepeatEnd =>
    match st.bar with
    | some b => .ok { st with bars := st.bars ++ [b], bar := none, count := 0 }
    | none => .ok st
  | .Chord c =>
    let bc : Bar × Nat :=
      match st.bar with
      | none => (Bar.new st.time_signature.top, 0)
      | some b => (b, st.count)
    if h : bc.2 < bc.1.counts.length then
      .ok { st with
            bar := some ⟨bc.1.counts.set bc.2
              (bc.1.counts.get ⟨bc.2, h⟩ ++ [BarElement.Chord c])⟩,
            count := bc.2 + 1 }
    else .panicked
  | .AlternateChord c =>
    let bc : Bar × Nat :=
      match st.bar with
      | none => (Bar.new st.time_signature.top, 0)
      | some b => (b, st.count)
    if h : bc.2 < bc.1.counts.length then
      .ok { st with
            bar := some ⟨bc.1.counts.set bc.2
              (bc.1.counts.get ⟨bc.2, h⟩ ++ [BarElement.AlternateChord c])⟩,
            count := bc.2 }
    else .panicked
  | .RepeatMeasure =>
    if h : st.bars = [] then .error "Repeat measure at beginning of song"
    else .ok { st with bar := some (st.bars.getLast h), count := 0 }
  | .RepeatTwoMeasures =>
    if h : st.bars.length < 2 then
      .error "Repeat 2 measures at beginning of song"
    else
      .ok { st with
            bars := st.bars ++ [st.bars.get ⟨st.bars.length - 2, by omega⟩],
            bar := some (st.bars.get ⟨st.bars.length - 1, by omega⟩),
            count := 0 }
  | .BarAndRepeat =>
    let bars1 :=
      match st.bar with
      | some b => st.bars ++ [b]
      | none => st.bars
    match bars1.getLast? with
    | none => .panicked
    | some lb => .ok { st with bars := bars1, bar := some lb, count := 0 }
  | .Space =>
    let bc : Bar × Nat :=
      match st.bar with
      | none => (Bar.new st.time_signature.top, 0)
      | some b => (b, st.count)
    .ok { st with bar := some bc.1, count := bc.2 + 1 }
  | _ => .ok st

/-- Folding `parse_music_step` over the token list, stopping at the first
error or panic (an early `return Err` leaves the loop; a panic unwinds). -/
def parse_music_run (st : PState) : List Token → POut PState
  | [] => .ok st
  | t :: ts =>
    match parse_music_step st t with
    | .panicked => .panicked
    | .error e => .error e
    | .ok st2 => parse_music_run st2 ts

/-- `parse_music` from `src/tokenize.rs`: tokenize with
`all_consuming(parse_tokens)(text).unwrap()` — a tokenizer error makes the
`unwrap` panic — then fold the loop and build the `Music` with
`repeat_start: None` and only the sealed `bars` (the still-open bar is
dropped). -/
def parse_music (text : List Char) : POut Music :=
  match pAllConsuming parse_tokens text with
  | .fail => .panicked
  | .panicked => .panicked
  | .done _ toks =>
    match parse_music_run initState toks with
    | .panicked => .panicked
    | .error e => .error e
    | .ok st => .ok { repeat_start := none, raw := text, bars := st.bars }

/-! ### Renderer (`src/parse.rs`: `Display` for `WrittenBar` and `Music`,
chord serialization from `src/types.rs`) -/

/-- The `Width` enum referenced by `src/parse.rs`. -/
inductive Width
  | Wide
  | Narrow
deriving DecidableEq, Repr

/-- `Display for Note` (`src/types.rs`). -/
def displayNote : Note → List Char
  | .AFlat => "Ab".toList
  | .A => "A".toList
  | .ASharp => "A#".toList
  | .BFlat => "Bb".toList
  | .B => "B".toList
  | .CFlat => "Cb".toList
  | .C => "C".toList
  | .CSharp => "C#".toList
  | .DFlat => "Db".toList
  | .D => "D".toList
  | .DSharp => "D#".toList
  | .EFlat => "Eb".toList
  | .E => "E".toList
  | .F => "F".toList
  | .FSharp => "F#".toList
  | .GFlat => "Gb".toList
  | .G => "G".toList
  | .GSharp => "G#".toList
  | .W => "W".toList

/-- `Display for Number` (`src/types.rs`). -/
def displayNumber : Number → List Char
  | .Two => "2".toList
  | .Three => "3".toList
  | .Five => "5".toList
  | .Six => "6".toList
  | .Seven => "7".toList
  | .Nine => "9".toList
  | .Eleven => "11".toList
  | .Thirteen => "13".toList

/-- `Display for Flavor` (`src/types.rs`). -/
def displayFlavor : Flavor → List Char
  | .Augmented (some n) => '+' :: displayNumber n
  | .Augmented none => ['+']
  | .Diminished (some n) => 'o' :: displayNumber n
  | .Diminished none => ['o']
  | .DiminishedMajor (some n) => 'o' :: '^' :: displayNumber n
  | .DiminishedMajor none => ['o', '^']
  | .HalfDiminished (some n) => 'h' :: displayNumber n
  | .HalfDiminished none => ['h']
  | .Minor (some n) => '-' :: displayNumber n
  | .Minor none => ['-']
  | .MinorMajor (some n) => '-' :: '^' :: displayNumber n
  | .MinorMajor none => ['-', '^']
  | .Dominant (some n) => displayNumber n
  | .Dominant none => []
  | .Major (some n) => '^' :: displayNumber n
  | .Major none => ['^']
  | .SixthNinth => "69".toList
  | .MinorSixthNinth => "m69".toList

/-- `Display for AlteredNotes` (`src/types.rs`). -/
def displayAltered : AlteredNotes → List Char
  | .Flat n => 'b' :: displayNumber n
  | .Sharp n => '#' :: displayNumber n
  | .Add n => 'a' :: 'd' :: 'd' :: displayNumber n
  | .Sus => "sus".toList
  | .Alt => "alt".toList

/-- `Display for Chord` (`src/types.rs`). -/
def displayChord : Chord → List Char
  | .NC => "N.C.".toList
  | .Some root flavor altered bass =>
    displayNote root ++ displayFlavor flavor
      ++ (altered.map displayAltered).flatten
      ++ (match bass with
          | some note => '/' :: displayNote note
          | none => [])

/-- `Display for TimeSignature` in `src/parse.rs`: `top/bottom`. -/
def displayTimeSignatureSlash (ts : TimeSignature) : List Char :=
  (toString ts.top).toList ++ '/' :: (toString ts.bottom).toList

/-- The `WrittenElement` enum from `src/parse.rs`. -/
inductive WrittenElement
  | SectionMarker (s : List Char)
  | TimeSignature (ts : TimeSignature)
  | Chord (c : Chord) (w : Width)
  | NumberedEnding (n : Nat)
  | RepeatMeasure
deriving DecidableEq, Repr

/-- The `WrittenBar` struct from `src/parse.rs`. -/
structure WrittenBar where
  repeat_start : Bool
  repeat_end : Bool
  double_start : Bool
  double_end : Bool
  elements : List WrittenElement
deriving DecidableEq, Repr

/-- `WrittenBar::new()`. -/
def WrittenBar.new : WrittenBar :=
  { repeat_start := false, repeat_end := false, double_start := false,
    double_end := false, elements := [] }

/-- The `Music` struct of `src/parse.rs` (raw text plus written bars). -/
structure MusicW where
  raw : List Char
  written_bars : List WrittenBar
deriving DecidableEq, Repr

/-- A run of `n` spaces. -/
def spaces (n : Nat) : List Char :=
  List.replicate n ' '

/-- Rust's `format!("{:>6}", s)`: right-justify into a minimum width of 6
characters. -/
def padLeft6 (s : List Char) : List Char :=
  spaces (6 - s.length) ++ s

/-- One element of `Display for WrittenBar`'s loop body: the characters
written and the amount added to `count` (1 for a narrow chord, 2 for a wide
chord, 0 otherwise). -/
def writtenElementRender : WrittenElement → List Char × Nat
  | .SectionMarker s => ('[' :: s ++ [']'], 0)
  | .TimeSignature ts => (displayTimeSignatureSlash ts, 0)
  | .Chord c .Narrow => (padLeft6 (displayChord c), 1)
  | .Chord c .Wide => (padLeft6 (displayChord c) ++ spaces 6, 2)
  | .NumberedEnding n => ('N' :: (toString n).toList, 0)
  | .RepeatMeasure => (spaces 12 ++ '%' :: spaces 11, 0)

/-- The `for (i, element)` loop of `Display for WrittenBar`: a space before
every element except the first, accumulating the slot `count`. -/
def writtenElementsGo : List WrittenElement → Nat → Nat → List Char × Nat
  | [], _, count => ([], count)
  | e :: es, i, count =>
    let sep : List Char := if 0 < i then [' '] else []
    let r := writtenElementRender e
    let rest := writtenElementsGo es (i + 1) (count + r.2)
    (sep ++ r.1 ++ rest.1, rest.2)

/-- The `while count < 4` padding loop of `Display for WrittenBar`,
fuel-indexed: at most 4 iterations ever run, so fuel 4 is exact.  Returns
the padding written and the final `count`. -/
def padGo : Nat → Nat → List Char × Nat
  | 0, count => ([], count)
  | fuel + 1, count =>
    if count < 4 then
      let r := padGo fuel (count + 1)
      (spaces 6 ++ r.1, r.2)
    else ([], count)

/-- The padding loop entered with slot count `count`. -/
def padLoop (count : Nat) : List Char × Nat :=
  padGo 4 count

/-- `Display for WrittenBar` (`src/parse.rs` lines 271-317): opening `|`,
optional second `|` and `:`, a space, the elements, padding to 4 slots,
then optional trailing `:` and `|`.  No closing `|` is written ("Assume
there's a | for the next line"). -/
def displayWrittenBar (b : WrittenBar) : List Char :=
  let r := writtenElementsGo b.elements 0 0
  '|' :: (if b.double_start then ['|'] else [])
    ++ (if b.repeat_start then [':'] else [])
    ++ [' '] ++ r.1 ++ (padLoop r.2).1
    ++ (if b.repeat_end then [':'] else [])
    ++ (if b.double_end then ['|'] else [])

/-- The `for (i, bar)` loop of `Display for Music` (`src/parse.rs` lines
87-97): before every bar whose index is a positive multiple of 4, write
`"|\n"` (the `writeln!`), then the bar itself. -/
def joinWrap : Nat → List (List Char) → List Char
  | _, [] => []
  | i, s :: rest =>
    (if i % 4 = 0 ∧ 0 < i then ['|', '\n'] else []) ++ s ++ joinWrap (i + 1) rest

/-- `Display for Music` (`src/parse.rs`). -/
def displayMusicW (m : MusicW) : List Char :=
  joinWrap 0 (m.written_bars.map displayWrittenBar)

/-- Modelled from the spec (amended C9 rendering contract): the bar strings
joined in groups of four, each group except the last terminated by a
closing `|` and a newline. -/
def renderLinesSpec (ss : List (List Char)) : List Char :=
  if ss.length ≤ 4 then ss.flatten
  else (ss.take 4).flatten ++ '|' :: '\n' :: renderLinesSpec (ss.drop 4)
termination_by ss.length
decreasing_by simp; omega

/-! ### Concrete inputs used by counterexamples and witnesses -/

/-- A 51-character text: one full 50-character block (49 `a`s then a `b`)
followed by a single `c`. -/
def cexC3 : List Char :=
  List.replicate 49 'a' ++ ['b', 'c']

/-- A concrete 50-character block. -/
def blk50 : List Char :=
  "abcdefghijklmnopqrstuvwxyzabcdefghijklmnopqrstuvwx".toList

/-- The chord produced by tokenizing a bare `C`. -/
def chordC : Chord :=
  .Some .C (.Dominant none) [] none

/-- The chord produced by tokenizing a bare `D`. -/
def chordD : Chord :=
  .Some .D (.Dominant none) [] none

/-- The 4-slot bar holding one `C` chord in its first slot. -/
def barC : Bar :=
  ⟨[[BarElement.Chord chordC], [], [], []]⟩

/-- The 4-slot bar holding one `D` chord in its first slot. -/
def barD : Bar :=
  ⟨[[BarElement.Chord chordD], [], [], []]⟩

/-- Parse state after placing one `C` chord into a fresh bar. -/
def stC1 : PState :=
  { bars := [], time_signature := ⟨4, 4⟩, bar := some barC, count := 1 }

/-- Parse state after placing two `C` chords into a fresh bar. -/
def stC2 : PState :=
  { bars := [], time_signature := ⟨4, 4⟩,
    bar := some ⟨[[BarElement.Chord chordC], [BarElement.Chord chordC], [], []]⟩,
    count := 2 }

/-- Parse state after sealing one `C` bar. -/
def stSealedC : PState :=
  { bars := [barC], time_signature := ⟨4, 4⟩, bar := none, count := 0 }

/-- Parse state after sealing a `C` bar and then re-opening a `C` bar. -/
def stSealedC1 : PState :=
  { bars := [barC], time_signature := ⟨4, 4⟩, bar := some barC, count := 1 }

/-- Parse state with two sealed bars. -/
def stTwoBars : PState :=
  { bars := [barC, barD], time_signature := ⟨4, 4⟩, bar := none, count := 0 }

/-- A written-bar music value with a single empty bar. -/
def cexMusicW : MusicW :=
  ⟨[], [WrittenBar.new]⟩

/-! ### Theorems: descrambler and percent decoder (claims C3, C4, C5) -/

/-- Helper for C4: on a fully explicit 50-element list, applying
`obfusc50` twice is the identity; each individual swap is evaluated by a
small `rfl` step so the nested swap chain is rewritten with sharing. -/
theorem obfusc50_double_fifty (a0 a1 a2 a3 a4 a5 a6 a7 a8 a9 a10 a11 a12 a13 a14 a15 a16 a17 a18 a19 a20 a21 a22 a23 a24 a25 a26 a27 a28 a29 a30 a31 a32 a33 a34 a35 a36 a37 a38 a39 a40 a41 a42 a43 a44 a45 a46 a47 a48 a49 : Char) :
    obfusc50 (obfusc50 [a0, a1, a2, a3, a4, a5, a6, a7, a8, a9, a10, a11, a12, a13, a14, a15, a16, a17, a18, a19, a20, a21, a22, a23, a24, a25, a26, a27, a28, a29, a30, a31, a32, a33, a34, a35, a36, a37, a38, a39, a40, a41, a42, a43, a44, a45, a46, a47, a48, a49]) = [a0, a1, a2, a3, a4, a5, a6, a7, a8, a9, a10, a11, a12, a13, a14, a15, a16, a17, a18, a19, a20, a21, a22, a23, a24, a25, a26, a27, a28, a29, a30, a31, a32, a33, a34, a35, a36, a37, a38, a39, a40, a41, a42, a43, a44, a45, a46, a47, a48, a49] := by
  have h1 : swapIdx [a0, a1, a2, a3, a4, a5, a6, a7, a8, a9, a10, a11, a12, a13, a14, a15, a16, a17, a18, a19, a20, a21, a22, a23, a24, a25, a26, a27, a28, a29, a30, a31, a32, a33, a34, a35, a36, a37, a38, a39, a40, a41, a42, a43, a44, a45, a46, a47, a48, a49] 0 49 = [a49, a1, a2, a3, a4, a5, a6, a7, a8, a9, a10, a11, a12, a13, a14, a15, a16, a17, a18, a19, a20, a21, a22, a23, a24, a25, a26, a27, a28, a29, a30, a31, a32, a33, a34, a35, a36, a37, a38, a39, a40, a41, a42, a43, a44, a45, a46, a47, a48, a0] := rfl
  have h2 : swapIdx [a49, a1, a2, a3, a4, a5, a6, a7, a8, a9, a10, a11, a12, a13, a14, a15, a16, a17, a18, a19, a20, a21, a22, a23, a24, a25, a26, a27, a28, a29, a30, a31, a32, a33, a34, a35, a36, a37, a38, a39, a40, a41, a42, a43, a44, a45, a46, a47, a48, a0] 1 48 = [a49, a48, a2, a3, a4, a5, a6, a7, a8, a9, a10, a11, a12, a13, a14, a15, a16, a17, a18, a19, a20, a21, a22, a23, a24, a25, a26, a27, a28, a29, a30, a31, a32, a33, a34, a35, a36, a37, a38, a39, a40, a41, a42, a43, a44, a45, a46, a47, a1, a0] := rfl
  have h3 : swapIdx [a49, a48, a2, a3, a4, a5, a6, a7, a8, a9, a10, a11, a12, a13, a14, a15, a16, a17, a18, a19, a20, a21, a22, a23, a24, a25, a26, a27, a28, a29, a30, a31, a32, a33, a34, a35, a36, a37, a38, a39, a40, a41, a42, a43, a44, a45, a46, a47, a1, a0] 2 47 = [a49, a48, a47, a3, a4, a5, a6, a7, a8, a9, a10, a11, a12, a13, a14, a15, a16, a17, a18, a19, a20, a21, a22, a23, a24, a25, a26, a27, a28, a29, a30, a31, a32, a33, a34, a35, a36, a37, a38, a39, a40, a41, a42, a43, a44, a45, a46, a2, a1, a0] := rfl
  have h4 : swapIdx [a49, a48, a47, a3, a4, a5, a6, a7, a8, a9, a10, a11, a12, a13, a14, a15, a16, a17, a18, a19, a20, a21, a22, a23, a24, a25, a26, a27, a28, a29, a30, a31, a32, a33, a34, a35, a36, a37, a38, a39, a40, a41, a42, a43, a44, a45, a46, a2, a1, a0] 3 46 = [a49, a48, a47, a46, a4, a5, a6, a7, a8, a9, a10, a11, a12, a13, a14, a15, a16, a17, a18, a19, a20, a21, a22, a23, a24, a25, a26, a27, a28, a29, a30, a31, a32, a33, a34, a35, a36, a37, a38, a39, a40, a41, a42, a43, a44, a45, a3, a2, a1, a0] := rfl
  have h5 : swapIdx [a49, a48, a47, a46, a4, a5, a6, a7, a8, a9, a10, a11, a12, a13, a14, a15, a16, a17, a18, a19, a20, a21, a22, a23, a24, a25, a26, a27, a28, a29, a30, a31, a32, a33, a34, a35, a36, a37, a38, a39, a40, a41, a42, a43, a44, a45, a3, a2, a1, a0] 4 45 = [a49, a48, a47, a46, a45, a5, a6, a7, a8, a9, a10, a11, a12, a13, a14, a15, a16, a17, a18, a19, a20, a21, a22, a23, a24, a25, a26, a27, a28, a29, a30, a31, a32, a33, a34, a35, a36, a37, a38, a39, a40, a41, a42, a43, a44, a4, a3, a2, a1, a0] := rfl
  have h6 : swapIdx [a49, a48, a47, a46, a45, a5, a6, a7, a8, a9, a10, a11, a12, a13, a14, a15, a16, a17, a18, a19, a20, a21, a22, a23, a24, a25, a26, a27, a28, a29, a30, a31, a32, a33, a34, a35, a36, a37, a38, a39, a40, a41, a42, a43, a44, a4, a3, a2, a1, a0] 10 39 = [a49, a48, a47, a46, a45, a5, a6, a7, a8, a9, a39, a11, a12, a13, a14, a15, a16, a17, a18, a19, a20, a21, a22, a23, a24, a25, a26, a27, a28, a29, a30, a31, a32, a33, a34, a35, a36, a37, a38, a10, a40, a41, a42, a43, a44, a4, a3, a2, a1, a0] := rfl
  have h7 : swapIdx [a49, a48, a47, a46, a45, a5, a6, a7, a8, a9, a39, a11, a12, a13, a14, a15, a16, a17, a18, a19, a20, a21, a22, a23, a24, a25, a26, a27, a28, a29, a30, a31, a32, a33, a34, a35, a36, a37, a38, a10, a40, a41, a42, a43, a44, a4, a3, a2, a1, a0] 11 38 = [a49, a48, a47, a46, a45, a5, a6, a7, a8, a9, a39, a38, a12, a13, a14, a15, a16, a17, a18, a19, a20, a21, a22, a23, a24, a25, a26, a27, a28, a29, a30, a31, a32, a33, a34, a35, a36, a37, a11, a10, a40, a41, a42, a43, a44, a4, a3, a2, a1, a0] := rfl
  have h8 : swapIdx [a49, a48, a47, a46, a45, a5, a6, a7, a8, a9, a39, a38, a12, a13, a14, a15, a16, a17, a18, a19, a20, a21, a22, a23, a24, a25, a26, a27, a28, a29, a30, a31, a32, a33, a34, a35, a36, a37, a11, a10, a40, a41, a42, a43, a44, a4, a3, a2, a1, a0] 12 37 = [a49, a48, a47, a46, a45, a5, a6, a7, a8, a9, a39, a38, a37, a13, a14, a15, a16, a17, a18, a19, a20, a21, a22, a23, a24, a25, a26, a27, a28, a29, a30, a31, a32, a33, a34, a35, a36, a12, a11, a10, a40, a41, a42, a43, a44, a4, a3, a2, a1, a0] := rfl
  have h9 : swapIdx [a49, a48, a47, a46, a45, a5, a6, a7, a8, a9, a39, a38, a37, a13, a14, a15, a16, a17, a18, a19, a20, a21, a22, a23, a24, a25, a26, a27, a28, a29, a30, a31, a32, a33, a34, a35, a36, a12, a11, a10, a40, a41, a42, a43, a44, a4, a3, a2, a1, a0] 13 36 = [a49, a48, a47, a46, a45, a5, a6, a7, a8, a9, a39, a38, a37, a36, a14, a15, a16, a17, a18, a19, a20, a21, a22, a23, a24, a25, a26, a27, a28, a29, a30, a31, a32, a33, a34, a35, a13, a12, a11, a10, a40, a41, a42, a43, a44, a4, a3, a2, a1, a0] := rfl
  have h10 : swapIdx [a49, a48, a47, a46, a45, a5, a6, a7, a8, a9, a39, a38, a37, a36, a14, a15, a16, a17, a18, a19, a20, a21, a22, a23, a24, a25, a26, a27, a28, a29, a30, a31, a32, a33, a34, a35, a13, a12, a11, a10, a40, a41, a42, a43, a44, a4, a3, a2, a1, a0] 14 35 = [a49, a48, a47, a46, a45, a5, a6, a7, a8, a9, a39, a38, a37, a36, a35, a15, a16, a17, a18, a19, a20, a21, a22, a23, a24, a25, a26, a27, a28, a29, a30, a31, a32, a33, a34, a14, a13, a12, a11, a10, a40, a41, a42, a43, a44, a4, a3, a2, a1, a0] := rfl
  have h11 : swapIdx [a49, a48, a47, a46, a45, a5, a6, a7, a8, a9, a39, a38, a37, a36, a35, a15, a16, a17, a18, a19, a20, a21, a22, a23, a24, a25, a26, a27, a28, a29, a30, a31, a32, a33, a34, a14, a13, a12, a11, a10, a40, a41, a42, a43, a44, a4, a3, a2, a1, a0] 15 34 = [a49, a48, a47, a46, a45, a5, a6, a7, a8, a9, a39, a38, a37, a36, a35, a34, a16, a17, a18, a19, a20, a21, a22, a23, a24, a25, a26, a27, a28, a29, a30, a31, a32, a33, a15, a14, a13, a12, a11, a10, a40, a41, a42, a43, a44, a4, a3, a2, a1, a0] := rfl
  have h12 : swapIdx [a49, a48, a47, a46, a45, a5, a6, a7, a8, a9, a39, a38, a37, a36, a35, a34, a16, a17, a18, a19, a20, a21, a22, a23, a24, a25, a26, a27, a28, a29, a30, a31, a32, a33, a15, a14, a13, a12, a11, a10, a40, a41, a42, a43, a44, a4, a3, a2, a1, a0] 16 33 = [a49, a48, a47, a46, a45, a5, a6, a7, a8, a9, a39, a38, a37, a36, a35, a34, a33, a17, a18, a19, a20, a21, a22, a23, a24, a25, a26, a27, a28, a29, a30, a31, a32, a16, a15, a14, a13, a12, a11, a10, a40, a41, a42, a43, a44, a4, a3, a2, a1, a0] := rfl
  have h13 : swapIdx [a49, a48, a47, a46, a45, a5, a6, a7, a8, a9, a39, a38, a37, a36, a35, a34, a33, a17, a18, a19, a20, a21, a22, a23, a24, a25, a26, a27, a28, a29, a30, a31, a32, a16, a15, a14, a13, a12, a11, a10, a40, a41, a42, a43, a44, a4, a3, a2, a1, a0] 17 32 = [a49, a48, a47, a46, a45, a5, a6, a7, a8, a9, a39, a38, a37, a36, a35, a34, a33, a32, a18, a19, a20, a21, a22, a23, a24, a25, a26, a27, a28, a29, a30, a31, a17, a16, a15, a14, a13, a12, a11, a10, a40, a41, a42, a43, a44, a4, a3, a2, a1, a0] := rfl
  have h14 : swapIdx [a49, a48, a47, a46, a45, a5, a6, a7, a8, a9, a39, a38, a37, a36, a35, a34, a33, a32, a18, a19, a20, a21, a22, a23, a24, a25, a26, a27, a28, a29, a30, a31, a17, a16, a15, a14, a13, a12, a11, a10, a40, a41, a42, a43, a44, a4, a3, a2, a1, a0] 18 31 = [a49, a48, a47, a46, a45, a5, a6, a7, a8, a9, a39, a38, a37, a36, a35, a34, a33, a32, a31, a19, a20, a21, a22, a23, a24, a25, a26, a27, a28, a29, a30, a18, a17, a16, a15, a14, a13, a12, a11, a10, a40, a41, a42, a43, a44, a4, a3, a2, a1, a0] := rfl
  have h15 : swapIdx [a49, a48, a47, a46, a45, a5, a6, a7, a8, a9, a39, a38, a37, a36, a35, a34, a33, a32, a31, a19, a20, a21, a22, a23, a24, a25, a26, a27, a28, a29, a30, a18, a17, a16, a15, a14, a13, a12, a11, a10, a40, a41, a42, a43, a44, a4, a3, a2, a1, a0] 19 30 = [a49, a48, a47, a46, a45, a5, a6, a7, a8, a9, a39, a38, a37, a36, a35, a34, a33, a32, a31, a30, a20, a21, a22, a23, a24, a25, a26, a27, a28, a29, a19, a18, a17, a16, a15, a14, a13, a12, a11, a10, a40, a41, a42, a43, a44, a4, a3, a2, a1, a0] := rfl
  have h16 : swapIdx [a49, a48, a47, a46, a45, a5, a6, a7, a8, a9, a39, a38, a37, a36, a35, a34, a33, a32, a31, a30, a20, a21, a22, a23, a24, a25, a26, a27, a28, a29, a19, a18, a17, a16, a15, a14, a13, a12, a11, a10, a40, a41, a42, a43, a44, a4, a3, a2, a1, a0] 20 29 = [a49, a48, a47, a46, a45, a5, a6, a7, a8, a9, a39, a38, a37, a36, a35, a34, a33, a32, a31, a30, a29, a21, a22, a23, a24, a25, a26, a27, a28, a20, a19, a18, a17, a16, a15, a14, a13, a12, a11, a10, a40, a41, a42, a43, a44, a4, a3, a2, a1, a0] := rfl
  have h17 : swapIdx [a49, a48, a47, a46, a45, a5, a6, a7, a8, a9, a39, a38, a37, a36, a35, a34, a33, a32, a31, a30, a29, a21, a22, a23, a24, a25, a26, a27, a28, a20, a19, a18, a17, a16, a15, a14, a13, a12, a11, a10, a40, a41, a42, a43, a44, a4, a3, a2, a1, a0] 21 28 = [a49, a48, a47, a46, a45, a5, a6, a7, a8, a9, a39, a38, a37, a36, a35, a34, a33, a32, a31, a30, a29, a28, a22, a23, a24, a25, a26, a27, a21, a20, a19, a18, a17, a16, a15, a14, a13, a12, a11, a10, a40, a41, a42, a43, a44, a4, a3, a2, a1, a0] := rfl
  have h18 : swapIdx [a49, a48, a47, a46, a45, a5, a6, a7, a8, a9, a39, a38, a37, a36, a35, a34, a33, a32, a31, a30, a29, a28, a22, a23, a24, a25, a26, a27, a21, a20, a19, a18, a17, a16, a15, a14, a13, a12, a11, a10, a40, a41, a42, a43, a44, a4, a3, a2, a1, a0] 22 27 = [a49, a48, a47, a46, a45, a5, a6, a7, a8, a9, a39, a38, a37, a36, a35, a34, a33, a32, a31, a30, a29, a28, a27, a23, a24, a25, a26, a22, a21, a20, a19, a18, a17, a16, a15, a14, a13, a12, a11, a10, a40, a41, a42, a43, a44, a4, a3, a2, a1, a0] := rfl
  have h19 : swapIdx [a49, a48, a47, a46, a45, a5, a6, a7, a8, a9, a39, a38, a37, a36, a35, a34, a33, a32, a31, a30, a29, a28, a27, a23, a24, a25, a26, a22, a21, a20, a19, a18, a17, a16, a15, a14, a13, a12, a11, a10, a40, a41, a42, a43, a44, a4, a3, a2, a1, a0] 23 26 = [a49, a48, a47, a46, a45, a5, a6, a7, a8, a9, a39, a38, a37, a36, a35, a34, a33, a32, a31, a30, a29, a28, a27, a26, a24, a25, a23, a22, a21, a20, a19, a18, a17, a16, a15, a14, a13, a12, a11, a10, a40, a41, a42, a43, a44, a4, a3, a2, a1, a0] := rfl
  have h20 : swapIdx [a49, a48, a47, a46, a45, a5, a6, a7, a8, a9, a39, a38, a37, a36, a35, a34, a33, a32, a31, a30, a29, a28, a27, a26, a24, a25, a23, a22, a21, a20, a19, a18, a17, a16, a15, a14, a13, a12, a11, a10, a40, a41, a42, a43, a44, a4, a3, a2, a1, a0] 0 49 = [a0, a48, a47, a46, a45, a5, a6, a7, a8, a9, a39, a38, a37, a36, a35, a34, a33, a32, a31, a30, a29, a28, a27, a26, a24, a25, a23, a22, a21, a20, a19, a18, a17, a16, a15, a14, a13, a12, a11, a10, a40, a41, a42, a43, a44, a4, a3, a2, a1, a49] := rfl
  have h21 : swapIdx [a0, a48, a47, a46, a45, a5, a6, a7, a8, a9, a39, a38, a37, a36, a35, a34, a33, a32, a31, a30, a29, a28, a27, a26, a24, a25, a23, a22, a21, a20, a19, a18, a17, a16, a15, a14, a13, a12, a11, a10, a40, a41, a42, a43, a44, a4, a3, a2, a1, a49] 1 48 = [a0, a1, a47, a46, a45, a5, a6, a7, a8, a9, a39, a38, a37, a36, a35, a34, a33, a32, a31, a30, a29, a28, a27, a26, a24, a25, a23, a22, a21, a20, a19, a18, a17, a16, a15, a14, a13, a12, a11, a10, a40, a41, a42, a43, a44, a4, a3, a2, a48, a49] := rfl
  have h22 : swapIdx [a0, a1, a47, a46, a45, a5, a6, a7, a8, a9, a39, a38, a37, a36, a35, a34, a33, a32, a31, a30, a29, a28, a27, a26, a24, a25, a23, a22, a21, a20, a19, a18, a17, a16, a15, a14, a13, a12, a11, a10, a40, a41, a42, a43, a44, a4, a3, a2, a48, a49] 2 47 = [a0, a1, a2, a46, a45, a5, a6, a7, a8, a9, a39, a38, a37, a36, a35, a34, a33, a32, a31, a30, a29, a28, a27, a26, a24, a25, a23, a22, a21, a20, a19, a18, a17, a16, a15, a14, a13, a12, a11, a10, a40, a41, a42, a43, a44, a4, a3, a47, a48, a49] := rfl
  have h23 : swapIdx [a0, a1, a2, a46, a45, a5, a6, a7, a8, a9, a39, a38, a37, a36, a35, a34, a33, a32, a31, a30, a29, a28, a27, a26, a24, a25, a23, a22, a21, a20, a19, a18, a17, a16, a15, a14, a13, a12, a11, a10, a40, a41, a42, a43, a44, a4, a3, a47, a48, a49] 3 46 = [a0, a1, a2, a3, a45, a5, a6, a7, a8, a9, a39, a38, a37, a36, a35, a34, a33, a32, a31, a30, a29, a28, a27, a26, a24, a25, a23, a22, a21, a20, a19, a18, a17, a16, a15, a14, a13, a12, a11, a10, a40, a41, a42, a43, a44, a4, a46, a47, a48, a49] := rfl
  have h24 : swapIdx [a0, a1, a2, a3, a45, a5, a6, a7, a8, a9, a39, a38, a37, a36, a35, a34, a33, a32, a31, a30, a29, a28, a27, a26, a24, a25, a23, a22, a21, a20, a19, a18, a17, a16, a15, a14, a13, a12, a11, a10, a40, a41, a42, a43, a44, a4, a46, a47, a48, a49] 4 45 = [a0, a1, a2, a3, a4, a5, a6, a7, a8, a9, a39, a38, a37, a36, a35, a34, a33, a32, a31, a30, a29, a28, a27, a26, a24, a25, a23, a22, a21, a20, a19, a18, a17, a16, a15, a14, a13, a12, a11, a10, a40, a41, a42, a43, a44, a45, a46, a47, a48, a49] := rfl
  have h25 : swapIdx [a0, a1, a2, a3, a4, a5, a6, a7, a8, a9, a39, a38, a37, a36, a35, a34, a33, a32, a31, a30, a29, a28, a27, a26, a24, a25, a23, a22, a21, a20, a19, a18, a17, a16, a15, a14, a13, a12, a11, a10, a40, a41, a42, a43, a44, a45, a46, a47, a48, a49] 10 39 = [a0, a1, a2, a3, a4, a5, a6, a7, a8, a9, a10, a38, a37, a36, a35, a34, a33, a32, a31, a30, a29, a28, a27, a26, a24, a25, a23, a22, a21, a20, a19, a18, a17, a16, a15, a14, a13, a12, a11, a39, a40, a41, a42, a43, a44, a45, a46, a47, a48, a49] := rfl
  have h26 : swapIdx [a0, a1, a2, a3, a4, a5, a6, a7, a8, a9, a10, a38, a37, a36, a35, a34, a33, a32, a31, a30, a29, a28, a27, a26, a24, a25, a23, a22, a21, a20, a19, a18, a17, a16, a15, a14, a13, a12, a11, a39, a40, a41, a42, a43, a44, a45, a46, a47, a48, a49] 11 38 = [a0, a1, a2, a3, a4, a5, a6, a7, a8, a9, a10, a11, a37, a36, a35, a34, a33, a32, a31, a30, a29, a28, a27, a26, a24, a25, a23, a22, a21, a20, a19, a18, a17, a16, a15, a14, a13, a12, a38, a39, a40, a41, a42, a43, a44, a45, a46, a47, a48, a49] := rfl
  have h27 : swapIdx [a0, a1, a2, a3, a4, a5, a6, a7, a8, a9, a10, a11, a37, a36, a35, a34, a33, a32, a31, a30, a29, a28, a27, a26, a24, a25, a23, a22, a21, a20, a19, a18, a17, a16, a15, a14, a13, a12, a38, a39, a40, a41, a42, a43, a44, a45, a46, a47, a48, a49] 12 37 = [a0, a1, a2, a3, a4, a5, a6, a7, a8, a9, a10, a11, a12, a36, a35, a34, a33, a32, a31, a30, a29, a28, a27, a26, a24, a25, a23, a22, a21, a20, a19, a18, a17, a16, a15, a14, a13, a37, a38, a39, a40, a41, a42, a43, a44, a45, a46, a47, a48, a49] := rfl
  have h28 : swapIdx [a0, a1, a2, a3, a4, a5, a6, a7, a8, a9, a10, a11, a12, a36, a35, a34, a33, a32, a31, a30, a29, a28, a27, a26, a24, a25, a23, a22, a21, a20, a19, a18, a17, a16, a15, a14, a13, a37, a38, a39, a40, a41, a42, a43, a44, a45, a46, a47, a48, a49] 13 36 = [a0, a1, a2, a3, a4, a5, a6, a7, a8, a9, a10, a11, a12, a13, a35, a34, a33, a32, a31, a30, a29, a28, a27, a26, a24, a25, a23, a22, a21, a20, a19, a18, a17, a16, a15, a14, a36, a37, a38, a39, a40, a41, a42, a43, a44, a45, a46, a47, a48, a49] := rfl
  have h29 : swapIdx [a0, a1, a2, a3, a4, a5, a6, a7, a8, a9, a10, a11, a12, a13, a35, a34, a33, a32, a31, a30, a29, a28, a27, a26, a24, a25, a23, a22, a21, a20, a19, a18, a17, a16, a15, a14, a36, a37, a38, a39, a40, a41, a42, a43, a44, a45, a46, a47, a48, a49] 14 35 = [a0, a1, a2, a3, a4, a5, a6, a7, a8, a9, a10, a11, a12, a13, a14, a34, a33, a32, a31, a30, a29, a28, a27, a26, a24, a25, a23, a22, a21, a20, a19, a18, a17, a16, a15, a35, a36, a37, a38, a39, a40, a41, a42, a43, a44, a45, a46, a47, a48, a49] := rfl
  have h30 : swapIdx [a0, a1, a2, a3, a4, a5, a6, a7, a8, a9, a10, a11, a12, a13, a14, a34, a33, a32, a31, a30, a29, a28, a27, a26, a24, a25, a23, a22, a21, a20, a19, a18, a17, a16, a15, a35, a36, a37, a38, a39, a40, a41, a42, a43, a44, a45, a46, a47, a48, a49] 15 34 = [a0, a1, a2, a3, a4, a5, a6, a7, a8, a9, a10, a11, a12, a13, a14, a15, a33, a32, a31, a30, a29, a28, a27, a26, a24, a25, a23, a22, a21, a20, a19, a18, a17, a16, a34, a35, a36, a37, a38, a39, a40, a41, a42, a43, a44, a45, a46, a47, a48, a49] := rfl
  have h31 : swapIdx [a0, a1, a2, a3, a4, a5, a6, a7, a8, a9, a10, a11, a12, a13, a14, a15, a33, a32, a31, a30, a29, a28, a27, a26, a24, a25, a23, a22, a21, a20, a19, a18, a17, a16, a34, a35, a36, a37, a38, a39, a40, a41, a42, a43, a44, a45, a46, a47, a48, a49] 16 33 = [a0, a1, a2, a3, a4, a5, a6, a7, a8, a9, a10, a11, a12, a13, a14, a15, a16, a32, a31, a30, a29, a28, a27, a26, a24, a25, a23, a22, a21, a20, a19, a18, a17, a33, a34, a35, a36, a37, a38, a39, a40, a41, a42, a43, a44, a45, a46, a47, a48, a49] := rfl
  have h32 : swapIdx [a0, a1, a2, a3, a4, a5, a6, a7, a8, a9, a10, a11, a12, a13, a14, a15, a16, a32, a31, a30, a29, a28, a27, a26, a24, a25, a23, a22, a21, a20, a19, a18, a17, a33, a34, a35, a36, a37, a38, a39, a40, a41, a42, a43, a44, a45, a46, a47, a48, a49] 17 32 = [a0, a1, a2, a3, a4, a5, a6, a7, a8, a9, a10, a11, a12, a13, a14, a15, a16, a17, a31, a30, a29, a28, a27, a26, a24, a25, a23, a22, a21, a20, a19, a18, a32, a33, a34, a35, a36, a37, a38, a39, a40, a41, a42, a43, a44, a45, a46, a47, a48, a49] := rfl
  have h33 : swapIdx [a0, a1, a2, a3, a4, a5, a6, a7, a8, a9, a10, a11, a12, a13, a14, a15, a16, a17, a31, a30, a29, a28, a27, a26, a24, a25, a23, a22, a21, a20, a19, a18, a32, a33, a34, a35, a36, a37, a38, a39, a40, a41, a42, a43, a44, a45, a46, a47, a48, a49] 18 31 = [a0, a1, a2, a3, a4, a5, a6, a7, a8, a9, a10, a11, a12, a13, a14, a15, a16, a17, a18, a30, a29, a28, a27, a26, a24, a25, a23, a22, a21, a20, a19, a31, a32, a33, a34, a35, a36, a37, a38, a39, a40, a41, a42, a43, a44, a45, a46, a47, a48, a49] := rfl
  have h34 : swapIdx [a0, a1, a2, a3, a4, a5, a6, a7, a8, a9, a10, a11, a12, a13, a14, a15, a16, a17, a18, a30, a29, a28, a27, a26, a24, a25, a23, a22, a21, a20, a19, a31, a32, a33, a34, a35, a36, a37, a38, a39, a40, a41, a42, a43, a44, a45, a46, a47, a48, a49] 19 30 = [a0, a1, a2, a3, a4, a5, a6, a7, a8, a9, a10, a11, a12, a13, a14, a15, a16, a17, a18, a19, a29, a28, a27, a26, a24, a25, a23, a22, a21, a20, a30, a31, a32, a33, a34, a35, a36, a37, a38, a39, a40, a41, a42, a43, a44, a45, a46, a47, a48, a49] := rfl
  have h35 : swapIdx [a0, a1, a2, a3, a4, a5, a6, a7, a8, a9, a10, a11, a12, a13, a14, a15, a16, a17, a18, a19, a29, a28, a27, a26, a24, a25, a23, a22, a21, a20, a30, a31, a32, a33, a34, a35, a36, a37, a38, a39, a40, a41, a42, a43, a44, a45, a46, a47, a48, a49] 20 29 = [a0, a1, a2, a3, a4, a5, a6, a7, a8, a9, a10, a11, a12, a13, a14, a15, a16, a17, a18, a19, a20, a28, a27, a26, a24, a25, a23, a22, a21, a29, a30, a31, a32, a33, a34, a35, a36, a37, a38, a39, a40, a41, a42, a43, a44, a45, a46, a47, a48, a49] := rfl
  have h36 : swapIdx [a0, a1, a2, a3, a4, a5, a6, a7, a8, a9, a10, a11, a12, a13, a14, a15, a16, a17, a18, a19, a20, a28, a27, a26, a24, a25, a23, a22, a21, a29, a30, a31, a32, a33, a34, a35, a36, a37, a38, a39, a40, a41, a42, a43, a44, a45, a46, a47, a48, a49] 21 28 = [a0, a1, a2, a3, a4, a5, a6, a7, a8, a9, a10, a11, a12, a13, a14, a15, a16, a17, a18, a19, a20, a21, a27, a26, a24, a25, a23, a22, a28, a29, a30, a31, a32, a33, a34, a35, a36, a37, a38, a39, a40, a41, a42, a43, a44, a45, a46, a47, a48, a49] := rfl
  have h37 : swapIdx [a0, a1, a2, a3, a4, a5, a6, a7, a8, a9, a10, a11, a12, a13, a14, a15, a16, a17, a18, a19, a20, a21, a27, a26, a24, a25, a23, a22, a28, a29, a30, a31, a32, a33, a34, a35, a36, a37, a38, a39, a40, a41, a42, a43, a44, a45, a46, a47, a48, a49] 22 27 = [a0, a1, a2, a3, a4, a5, a6, a7, a8, a9, a10, a11, a12, a13, a14, a15, a16, a17, a18, a19, a20, a21, a22, a26, a24, a25, a23, a27, a28, a29, a30, a31, a32, a33, a34, a35, a36, a37, a38, a39, a40, a41, a42, a43, a44, a45, a46, a47, a48, a49] := rfl
  have h38 : swapIdx [a0, a1, a2, a3, a4, a5, a6, a7, a8, a9, a10, a11, a12, a13, a14, a15, a16, a17, a18, a19, a20, a21, a22, a26, a24, a25, a23, a27, a28, a29, a30, a31, a32, a33, a34, a35, a36, a37, a38, a39, a40, a41, a42, a43, a44, a45, a46, a47, a48, a49] 23 26 = [a0, a1, a2, a3, a4, a5, a6, a7, a8, a9, a10, a11, a12, a13, a14, a15, a16, a17, a18, a19, a20, a21, a22, a23, a24, a25, a26, a27, a28, a29, a30, a31, a32, a33, a34, a35, a36, a37, a38, a39, a40, a41, a42, a43, a44, a45, a46, a47, a48, a49] := rfl
  have hr5 : List.range 5 = [0, 1, 2, 3, 4] := rfl
  have hr14 : List.range' 10 14 = [10, 11, 12, 13, 14, 15, 16, 17, 18, 19, 20, 21, 22, 23] := rfl
  simp [obfusc50, hr5, hr14, h1, h2, h3, h4, h5, h6, h7, h8, h9, h10, h11, h12, h13, h14, h15, h16, h17, h18, h19, h20, h21, h22, h23, h24, h25, h26, h27, h28, h29, h30, h31, h32, h33, h34, h35, h36, h37, h38]

/-- C4: for every 50-character block `b`, applying the block permutation
`obfusc50` twice is the identity — the permutation is an involution made of
disjoint 2-cycles, so one function serves for scrambling and
descrambling. -/
theorem obfusc50_involutive (b : List Char) (h : b.length = 50) :
    obfusc50 (obfusc50 b) = b := by
  rcases b with _ | ⟨a0, b⟩
  · simp at h
  rcases b with _ | ⟨a1, b⟩
  · simp at h
  rcases b with _ | ⟨a2, b⟩
  · simp at h
  rcases b with _ | ⟨a3, b⟩
  · simp at h
  rcases b with _ | ⟨a4, b⟩
  · simp at h
  rcases b with _ | ⟨a5, b⟩
  · simp at h
  rcases b with _ | ⟨a6, b⟩
  · simp at h
  rcases b with _ | ⟨a7, b⟩
  · simp at h
  rcases b with _ | ⟨a8, b⟩
  · simp at h
  rcases b with _ | ⟨a9, b⟩
  · simp at h
  rcases b with _ | ⟨a10, b⟩
  · simp at h
  rcases b with _ | ⟨a11, b⟩
  · simp at h
  rcases b with _ | ⟨a12, b⟩
  · simp at h
  rcases b with _ | ⟨a13, b⟩
  · simp at h
  rcases b with _ | ⟨a14, b⟩
  · simp at h
  rcases b with _ | ⟨a15, b⟩
  · simp at h
  rcases b with _ | ⟨a16, b⟩
  · simp at h
  rcases b with _ | ⟨a17, b⟩
  · simp at h
  rcases b with _ | ⟨a18, b⟩
  · simp at h
  rcases b with _ | ⟨a19, b⟩
  · simp at h
  rcases b with _ | ⟨a20, b⟩
  · simp at h
  rcases b with _ | ⟨a21, b⟩
  · simp at h
  rcases b with _ | ⟨a22, b⟩
  · simp at h
  rcases b with _ | ⟨a23, b⟩
  · simp at h
  rcases b with _ | ⟨a24, b⟩
  · simp at h
  rcases b with _ | ⟨a25, b⟩
  · simp at h
  rcases b with _ | ⟨a26, b⟩
  · simp at h
  rcases b with _ | ⟨a27, b⟩
  · simp at h
  rcases b with _ | ⟨a28, b⟩
  · simp at h
  rcases b with _ | ⟨a29, b⟩
  · simp at h
  rcases b with _ | ⟨a30, b⟩
  · simp at h
  rcases b with _ | ⟨a31, b⟩
  · simp at h
  rcases b with _ | ⟨a32, b⟩
  · simp at h
  rcases b with _ | ⟨a33, b⟩
  · simp at h
  rcases b with _ | ⟨a34, b⟩
  · simp at h
  rcases b with _ | ⟨a35, b⟩
  · simp at h
  rcases b with _ | ⟨a36, b⟩
  · simp at h
  rcases b with _ | ⟨a37, b⟩
  · simp at h
  rcases b with _ | ⟨a38, b⟩
  · simp at h
  rcases b with _ | ⟨a39, b⟩
  · simp at h
  rcases b with _ | ⟨a40, b⟩
  · simp at h
  rcases b with _ | ⟨a41, b⟩
  · simp at h
  rcases b with _ | ⟨a42, b⟩
  · simp at h
  rcases b with _ | ⟨a43, b⟩
  · simp at h
  rcases b with _ | ⟨a44, b⟩
  · simp at h
  rcases b with _ | ⟨a45, b⟩
  · simp at h
  rcases b with _ | ⟨a46, b⟩
  · simp at h
  rcases b with _ | ⟨a47, b⟩
  · simp at h
  rcases b with _ | ⟨a48, b⟩
  · simp at h
  rcases b with _ | ⟨a49, b⟩
  · simp at h
  rcases b with _ | ⟨extra, b⟩
  · exact obfusc50_double_fifty a0 a1 a2 a3 a4 a5 a6 a7 a8 a9 a10 a11 a12 a13 a14 a15 a16 a17 a18 a19 a20 a21 a22 a23 a24 a25 a26 a27 a28 a29 a30 a31 a32 a33 a34 a35 a36 a37 a38 a39 a40 a41 a42 a43 a44 a45 a46 a47 a48 a49
  · simp at h

/-- Witness for C4 at a concrete 50-character block. -/
theorem obfusc50_involutive_witness :
    blk50.length = 50 ∧ obfusc50 (obfusc50 blk50) = blk50 :=
  ⟨by decide, obfusc50_involutive blk50 (by decide)⟩

/-- Texts of at most 50 characters never enter the descrambling loop, for
any fuel. -/
theorem unscrambleFuel_short (f : Nat) (text : List Char)
    (h : text.length ≤ 50) : unscrambleFuel f text = text := by
  cases f with
  | zero => rfl
  | succ f => simp only [unscrambleFuel, if_neg (by omega : ¬ 50 < text.length)]

/-- The fuel argument of `unscrambleFuel` is irrelevant once it covers the
input length. -/
theorem unscrambleFuel_congr (f g : Nat) (text : List Char)
    (hf : text.length ≤ f) (hg : text.length ≤ g) :
    unscrambleFuel f text = unscrambleFuel g text := by
  induction f generalizing g text with
  | zero =>
    rw [unscrambleFuel_short 0 text (by omega),
      unscrambleFuel_short g text (by omega)]
  | succ f ih =>
    cases g with
    | zero =>
      rw [unscrambleFuel_short (f + 1) text (by omega),
        unscrambleFuel_short 0 text (by omega)]
    | succ g =>
      by_cases hlen : 50 < text.length
      · simp only [unscrambleFuel, if_pos hlen]
        congr 1
        exact ih g (text.drop 50) (by simp only [List.length_drop]; omega)
          (by simp only [List.length_drop]; omega)
      · simp only [unscrambleFuel, if_neg hlen]

/-- C3 amended: `unscramble` splits off 50-character blocks while more than
50 characters remain; a split-off full block is permuted only when at least
2 characters follow it and is copied unchanged when exactly one character
follows; the final remainder (up to 50 characters) is appended unchanged. -/
theorem unscramble_blocks :
    (∀ text : List Char, 2 ≤ (text.drop 50).length →
      unscramble text = obfusc50 (text.take 50) ++ unscramble (text.drop 50))
    ∧ (∀ text : List Char, 50 < text.length → (text.drop 50).length < 2 →
      unscramble text = text)
    ∧ (∀ text : List Char, text.length ≤ 50 → unscramble text = text) := by
  refine ⟨?_, ?_, ?_⟩
  · intro text h
    have hlen : 52 ≤ text.length := by simp at h; omega
    obtain ⟨n, hn⟩ : ∃ n, text.length = n + 1 :=
      ⟨text.length - 1, by omega⟩
    have h1 : unscramble text = unscrambleFuel (n + 1) text := by
      rw [unscramble, hn]
    rw [h1]
    simp only [unscrambleFuel, if_pos (by omega : 50 < text.length),
      if_neg (by omega : ¬ (text.drop 50).length < 2)]
    congr 1
    rw [unscramble]
    exact unscrambleFuel_congr n (text.drop 50).length (text.drop 50)
      (by simp only [List.length_drop]; omega) (by omega)
  · intro text hgt hlt
    obtain ⟨n, hn⟩ : ∃ n, text.length = n + 1 :=
      ⟨text.length - 1, by omega⟩
    have h1 : unscramble text = unscrambleFuel (n + 1) text := by
      rw [unscramble, hn]
    rw [h1]
    simp only [unscrambleFuel, if_pos (by omega : 50 < text.length),
      if_pos hlt]
    rw [unscrambleFuel_short n (text.drop 50) (by omega)]
    exact List.take_append_drop 50 text
  · intro text h
    rw [unscramble]
    exact unscrambleFuel_short text.length text h

/-- Witness for C3 amended, at concrete texts of lengths 52, 51 and 1. -/
theorem unscramble_blocks_witness :
    unscramble (cexC3 ++ ['d'])
      = obfusc50 ((cexC3 ++ ['d']).take 50) ++ unscramble ((cexC3 ++ ['d']).drop 50)
    ∧ unscramble cexC3 = cexC3
    ∧ unscramble ['q'] = ['q'] :=
  ⟨unscramble_blocks.1 (cexC3 ++ ['d']) (by decide),
    unscramble_blocks.2.1 cexC3 (by decide) (by decide),
    unscramble_blocks.2.2 ['q'] (by decide)⟩

/-- Counterexample to C3 as stated: on this 51-character text the first
full 50-character block is followed by a single character, so the code
appends it without applying the permutation, although the permutation
would have changed it. -/
theorem unscramble_counterexample :
    unscramble cexC3 = cexC3
    ∧ obfusc50 (cexC3.take 50) ≠ cexC3.take 50
    ∧ unscramble cexC3 ≠ obfusc50 (cexC3.take 50) ++ cexC3.drop 50 := by
  refine ⟨by decide, by decide, by decide⟩

/-- C5 (code evaluation): `unescape_percent` silently accepts a dangling
`%` and a `%`-plus-one-hex-digit at end of input, returning `Ok` with the
incomplete escape dropped instead of an error. -/
theorem unescape_percent_drops_incomplete :
    unescape_percent ['%'] = .ok []
    ∧ unescape_percent ("ab%4".toList) = .ok ("ab".toList)
    ∧ unescape_percent ("ab%".toList) = .ok ("ab".toList) := by
  refine ⟨by rfl, by rfl, by rfl⟩

/-! ### Theorems: tokenizer and bar parser (claims C1, C2, C6, C7, C8, C10) -/

/-- C1 (code evaluation): `parse_music` panics — it does not return an
error value — both on `"Kcl"` (a `BarAndRepeat` with no open bar and no
sealed bar reaches `bars.last().unwrap()`) and on `"CCCCC"` (a fifth chord
reaches `counts[4]` in a 4-slot bar, an out-of-bounds index). -/
theorem parse_music_panics :
    parse_music ("Kcl".toList) = .panicked
    ∧ parse_music ("CCCCC".toList) = .panicked := by
  refine ⟨by decide, by decide⟩

/-- C2 (code evaluation): on input `"@"`, which no tokenizer rule matches,
`parse_music` panics via `.unwrap()` on the `all_consuming` error instead
of returning an `UnrecognizedInput` result. -/
theorem parse_music_panics_on_unmatched :
    parse_music ['@'] = .panicked := by decide

/-- Counterexample to C6 as stated: parsing `"CC|"` — no `Squeeze` token,
so both chords are placed while unsqueezed — puts the second chord in beat
slot 1, not slot 2: the cursor advances by 1 per chord, not by 2. -/
theorem chord_slot_counterexample :
    parse_music ("CC|".toList)
      = .ok { repeat_start := none, raw := "CC|".toList,
              bars := [⟨[[BarElement.Chord chordC], [BarElement.Chord chordC],
                [], []]⟩] } := by
  decide

/-- C6 amended: a bar opened under the (never updated) default 4/4
signature has `time_signature.top = 4` beat slots; every placed chord
advances the beat-slot cursor by exactly 1, whether or not a `Squeeze`
token was seen, because `Squeeze` falls into the ignore arm and leaves the
parse state unchanged. -/
theorem squeeze_ignored_chord_advances_one :
    (∀ st : PState, parse_music_step st .Squeeze = .ok st)
    ∧ (∀ st : PState, ∀ c : Chord, ∀ st2 : PState, st.bar = none →
        parse_music_step st (.Chord c) = .ok st2 →
        ∃ b, st2.bar = some b ∧ b.counts.length = st.time_signature.top
          ∧ st2.count = 1)
    ∧ (∀ st : PState, ∀ c : Chord, ∀ st2 : PState, ∀ b : Bar,
        st.bar = some b → parse_music_step st (.Chord c) = .ok st2 →
        st2.count = st.count + 1)
    ∧ (∀ st : PState, ∀ t : Token, ∀ st2 : PState,
        parse_music_step st t = .ok st2 →
        st2.time_signature = st.time_signature)
    ∧ initState.time_signature = ⟨4, 4⟩ := by
  refine ⟨?_, ?_, ?_, ?_, rfl⟩
  · intro st
    rfl
  · intro st c st2 hb hstep
    simp only [parse_music_step, hb] at hstep
    split at hstep
    · rename_i h
      cases hstep
      refine ⟨_, rfl, ?_, rfl⟩
      simp [Bar.new]
    · cases hstep
  · intro st c st2 b hb hstep
    simp only [parse_music_step, hb] at hstep
    split at hstep
    · cases hstep
      rfl
    · cases hstep
  · intro st t st2 h
    cases t <;> simp only [parse_music_step] at h <;>
      (repeat' split at h) <;> (try cases h) <;> rfl

/-- Witness for C6 amended at concrete states: `Squeeze` leaves the empty
initial state unchanged; a chord placed into the empty state opens a
4-slot bar with cursor 1; a second chord moves the cursor from 1 to 2; the
time signature is unchanged by a chord step. -/
theorem squeeze_ignored_witness :
    parse_music_step initState .Squeeze = .ok initState
    ∧ (∃ b, stC1.bar = some b
        ∧ b.counts.length = initState.time_signature.top
        ∧ stC1.count = 1)
    ∧ stC2.count = stC1.count + 1
    ∧ stC2.time_signature = stC1.time_signature :=
  ⟨squeeze_ignored_chord_advances_one.1 initState,
    squeeze_ignored_chord_advances_one.2.1 initState chordC stC1 rfl (by decide),
    squeeze_ignored_chord_advances_one.2.2.1 stC1 chordC stC2 barC rfl (by decide),
    squeeze_ignored_chord_advances_one.2.2.2.1 stC1 (.Chord chordC) stC2 (by decide)⟩

/-- Running the token loop over an appended list runs the two parts in
sequence, stopping at the first error or panic. -/
theorem parse_music_run_append (xs ys : List Token) (st : PState) :
    parse_music_run st (xs ++ ys) =
      match parse_music_run st xs with
      | .panicked => .panicked
      | .error e => .error e
      | .ok st1 => parse_music_run st1 ys := by
  induction xs generalizing st with
  | nil => simp [parse_music_run]
  | cons t ts ih =>
    simp only [List.cons_append, parse_music_run]
    cases parse_music_step st t <;> simp [ih]

/-- C7 amended: at end of the token stream any open bar is discarded,
whether or not it has content.  A trailing chord token — which opens or
extends an open bar but never seals it — leaves the sealed-bar list of an
accepted parse unchanged, and the returned `Music` contains exactly the
sealed bars of the final loop state. -/
theorem trailing_open_bar_discarded :
    (∀ toks : List Token, ∀ c : Chord, ∀ st st2 : PState,
      parse_music_run initState toks = .ok st →
      parse_music_run initState (toks ++ [.Chord c]) = .ok st2 →
      st2.bars = st.bars)
    ∧ (∀ text rest : List Char, ∀ toks : List Token, ∀ st : PState,
      pAllConsuming parse_tokens text = .done rest toks →
      parse_music_run initState toks = .ok st →
      parse_music text = .ok (Music.mk none text st.bars)) := by
  constructor
  · intro toks c st st2 h1 h2
    rw [parse_music_run_append, h1] at h2
    simp only [parse_music_run] at h2
    rcases hs : parse_music_step st (Token.Chord c) with _ | e | st3 <;>
      rw [hs] at h2
    · cases h2
    · cases h2
    · cases h2
      simp only [parse_music_step] at hs
      rcases hb : st.bar with _ | b <;> simp only [hb] at hs <;>
        split at hs <;> cases hs <;> rfl
  · intro text rest toks st h1 h2
    simp only [parse_music, h1, h2]

/-- Counterexample to C7 as stated: parsing `"C"` leaves an open bar that
contains a chord, yet the returned bar list is empty — the content-bearing
trailing open bar is discarded, not sealed. -/
theorem trailing_bar_counterexample :
    parse_music ['C'] = .ok (Music.mk none ['C'] []) := by
  decide

/-- Witness for C7 amended: sealing a `C` bar and then appending a
trailing chord keeps the bar list `[barC]`, and the parse of `"C|"`
returns exactly the sealed bars. -/
theorem trailing_open_bar_discarded_witness :
    stSealedC1.bars = stSealedC.bars
    ∧ parse_music ("C|".toList)
      = .ok (Music.mk none ("C|".toList) stSealedC.bars) :=
  ⟨trailing_open_bar_discarded.1 [.Chord chordC, .Bar] chordC stSealedC
      stSealedC1 (by decide) (by decide),
    trailing_open_bar_discarded.2 ("C|".toList) [] [.Chord chordC, .Bar]
      stSealedC (by decide) (by decide)⟩

/-- C8: `RepeatMeasure` with no sealed bar returns the no-prior-bar error
(in particular at the head of the stream); `RepeatTwoMeasures` with fewer
than two sealed bars returns the insufficient-history error; otherwise
`RepeatMeasure` opens a verbatim clone of the most recently sealed bar and
`RepeatTwoMeasures` appends a clone of the second-to-last sealed bar to
the bar list and opens a clone of the last sealed bar. -/
theorem repeat_shorthand_rules :
    (∀ st : PState, st.bars = [] →
      parse_music_step st .RepeatMeasure
        = .error "Repeat measure at beginning of song")
    ∧ (∀ ts : List Token, parse_music_run initState (.RepeatMeasure :: ts)
        = .error "Repeat measure at beginning of song")
    ∧ (∀ st : PState, st.bars.length < 2 →
      parse_music_step st .RepeatTwoMeasures
        = .error "Repeat 2 measures at beginning of song")
    ∧ (∀ st : PState, ∀ h : st.bars ≠ [],
      parse_music_step st .RepeatMeasure
        = .ok { st with bar := some (st.bars.getLast h), count := 0 })
    ∧ (∀ st : PState, ∀ h : 2 ≤ st.bars.length,
      parse_music_step st .RepeatTwoMeasures
        = .ok { st with
                bars := st.bars ++ [st.bars.get ⟨st.bars.length - 2, by omega⟩],
                bar := some (st.bars.get ⟨st.bars.length - 1, by omega⟩),
                count := 0 }) := by
  refine ⟨?_, ?_, ?_, ?_, ?_⟩
  · intro st h
    simp [parse_music_step, h]
  · intro ts
    rfl
  · intro st h
    simp only [parse_music_step, dif_pos h]
  · intro st h
    simp [parse_music_step, h]
  · intro st h
    simp only [parse_music_step, dif_neg (by omega : ¬ st.bars.length < 2)]

/-- Witness for C8 at concrete states: the initial state errors on both
repeat shorthands, and a state with two sealed bars clones them as
described. -/
theorem repeat_shorthand_rules_witness :
    parse_music_step initState .RepeatMeasure
      = .error "Repeat measure at beginning of song"
    ∧ parse_music_run initState [.RepeatMeasure]
      = .error "Repeat measure at beginning of song"
    ∧ parse_music_step initState .RepeatTwoMeasures
      = .error "Repeat 2 measures at beginning of song"
    ∧ parse_music_step stTwoBars .RepeatMeasure
      = .ok { stTwoBars with
              bar := some (stTwoBars.bars.getLast (by decide)), count := 0 }
    ∧ parse_music_step stTwoBars .RepeatTwoMeasures
      = .ok { stTwoBars with
              bars := stTwoBars.bars
                ++ [stTwoBars.bars.get ⟨stTwoBars.bars.length - 2, by decide⟩],
              bar := some (stTwoBars.bars.get ⟨stTwoBars.bars.length - 1, by decide⟩),
              count := 0 } :=
  ⟨repeat_shorthand_rules.1 initState rfl,
    repeat_shorthand_rules.2.1 [],
    repeat_shorthand_rules.2.2.1 initState (by decide),
    repeat_shorthand_rules.2.2.2.1 stTwoBars (by decide),
    repeat_shorthand_rules.2.2.2.2 stTwoBars (by decide)⟩

/-- C10: whenever `parse_music` returns a `Music` value, its
`repeat_start` field is `none`; the construction at the end of the loop
always fills it with `None`. -/
theorem parse_music_repeat_start_none :
    ∀ text : List Char, ∀ m : Music, parse_music text = .ok m →
      m.repeat_start = none := by
  intro text m h
  simp only [parse_music] at h
  split at h
  · cases h
  · cases h
  · split at h
    · cases h
    · cases h
    · cases h
      rfl

/-- Witness for C10: the parse of `"C|"` succeeds and its `repeat_start`
is `none`. -/
theorem parse_music_repeat_start_none_witness :
    (Music.mk none ("C|".toList) [barC]).repeat_start = none :=
  parse_music_repeat_start_none ("C|".toList)
    (Music.mk none ("C|".toList) [barC]) (by decide)

/-! ### Theorems: renderer (claim C9) -/

/-- `joinWrap` only looks at its index through `index % 4` and
`0 < index`. -/
theorem joinWrap_congr (ss : List (List Char)) (i j : Nat) (hi : 0 < i)
    (hj : 0 < j) (hmod : i % 4 = j % 4) : joinWrap i ss = joinWrap j ss := by
  induction ss generalizing i j with
  | nil => rfl
  | cons s rest ih =>
    have hcond : (i % 4 = 0 ∧ 0 < i) ↔ (j % 4 = 0 ∧ 0 < j) := by
      constructor
      · intro hx
        exact ⟨by omega, hj⟩
      · intro hx
        exact ⟨by omega, hi⟩
    simp only [joinWrap, hcond]
    rw [ih (i + 1) (j + 1) (by omega) (by omega) (by omega)]

/-- The index-fold of `Display for Music` equals the grouped-join form:
bars in groups of four, `"|\n"` between groups. -/
theorem joinWrap_renderLines (ss : List (List Char)) :
    joinWrap 0 ss = renderLinesSpec ss := by
  have H : ∀ n : Nat, ∀ ss : List (List Char), ss.length ≤ n →
      joinWrap 0 ss = renderLinesSpec ss := by
    intro n
    induction n with
    | zero =>
      intro ss h
      match ss with
      | [] => simp [joinWrap, renderLinesSpec]
    | succ n ih =>
      intro ss h
      match ss with
      | [] => simp [joinWrap, renderLinesSpec]
      | [a] => simp [joinWrap, renderLinesSpec]
      | [a, b] => simp [joinWrap, renderLinesSpec]
      | [a, b, c] => simp [joinWrap, renderLinesSpec]
      | [a, b, c, d] => simp [joinWrap, renderLinesSpec]
      | a :: b :: c :: d :: e :: rest =>
        have hrw : joinWrap 5 rest = joinWrap 1 rest := by
          rcases rest with _ | ⟨r, rest⟩
          · rfl
          · exact joinWrap_congr _ 5 1 (by omega) (by omega) (by omega)
        have hih : joinWrap 0 (e :: rest) = renderLinesSpec (e :: rest) := by
          apply ih
          have := h
          simp at this ⊢
          omega
        have hrhs : renderLinesSpec (a :: b :: c :: d :: e :: rest)
            = a ++ (b ++ (c ++ (d ++ '|' :: '\n' :: renderLinesSpec (e :: rest)))) := by
          rw [renderLinesSpec]
          simp only [List.length_cons,
            if_neg (by omega : ¬ rest.length + 1 + 1 + 1 + 1 + 1 ≤ 4)]
          simp [List.append_assoc]
        rw [hrhs, ← hih]
        simp [joinWrap, hrw, List.append_assoc]
  exact H ss.length ss (le_refl _)

/-- C9 amended: rendering is the grouped-join of the per-bar strings —
a `"|\n"` line terminator after every full group of 4 bars, with the final
line left unterminated — and the padding loop always raises the slot count
to at least 4 (exactly `max count 4`). -/
theorem renderer_line_structure :
    (∀ m : MusicW, displayMusicW m
      = renderLinesSpec (m.written_bars.map displayWrittenBar))
    ∧ (∀ count : Nat, (padLoop count).2 = max count 4) := by
  constructor
  · intro m
    exact joinWrap_renderLines _
  · intro count
    match count with
    | 0 => decide
    | 1 => decide
    | 2 => decide
    | 3 => decide
    | n + 4 =>
      simp only [padLoop, padGo, if_neg (by omega : ¬ n + 4 < 4)]
      omega

/-- Counterexample to C9 as stated: rendering a music value with a single
(empty) written bar produces nonempty output whose final line is not
terminated by a closing `|` — its last character is a space. -/
theorem renderer_last_line_counterexample :
    displayMusicW cexMusicW ≠ []
    ∧ (displayMusicW cexMusicW).getLast? = some ' '
    ∧ (displayMusicW cexMusicW).getLast? ≠ some '|' := by
  refine ⟨by decide, by decide, by decide⟩

end IrealUrl
